import Mathlib

/-!
Shallow embedding of `src/lib/auth/auth.js` (the `Auth` class of the
auth-module repository) together with spec-modelled versions of its two
in-repository collaborators that are not part of the provided sources
(`./storage` and `./utilities`).

JavaScript values are modelled by the inductive `JsValue`; JS truthiness by
`truthy`; promise outcomes by `Except JsValue JsValue` (a settled promise is
either rejected with an error value or fulfilled with a value).  All the
operations of the `Auth` class are modelled as pure state transformers over
the record `Auth`, returning the updated state together with the settled
result of the returned promise.  The error broadcast bus is modelled by the
`broadcasts` log: one entry per `callOnError` fan-out, carrying the error
value and the originating method tag.
-/

set_option autoImplicit false

namespace AuthModule

/-- A JavaScript value, as far as the auth core needs to distinguish them. -/
inductive JsValue where
  | null
  | undefined
  | bool (b : Bool)
  | num (n : Int)
  | str (s : String)
  | arr (elems : List JsValue)
  | obj (fields : List (String × JsValue))
  deriving Repr

/-- JS truthiness: `null`, `undefined`, `false`, `0` and `""` are falsy;
every array and object (even empty ones) is truthy. -/
def truthy : JsValue → Bool
  | .null => false
  | .undefined => false
  | .bool b => b
  | .num n => n != 0
  | .str s => s != ""
  | .arr _ => true
  | .obj _ => true

/-- JS `a && b`. -/
def jsAnd (a b : JsValue) : JsValue :=
  if truthy a then b else a

/-- JS strict equality `v === s` against a string literal `s` (the only
shape of `===` the source uses). -/
def strictEqStr (v : JsValue) (s : String) : Bool :=
  match v with
  | .str t => t == s
  | _ => false

/-- String coercion used for computed property keys (`prefix + strategy`,
`strategies[name]`). -/
def jsKeyString : JsValue → String
  | .str s => s
  | .undefined => "undefined"
  | .null => "null"
  | .bool b => if b then "true" else "false"
  | .num n => toString n
  | .arr _ => ""
  | .obj _ => "object Object"

/-- A JS object used as a string-keyed map (storage state, endpoints,
header maps).  Lookup takes the first matching entry. -/
abbrev StoreMap := List (String × JsValue)

/-- Read a key off a `StoreMap`; missing keys read as `undefined`,
exactly as JS property access does. -/
def getEntry (m : StoreMap) (k : String) : JsValue :=
  match m with
  | [] => .undefined
  | (k2, v) :: rest => if k2 == k then v else getEntry rest k

/-- Assign a key on a `StoreMap` (JS property write). -/
def setEntry (m : StoreMap) (k : String) (v : JsValue) : StoreMap :=
  (k, v) :: m

/-- JS `Object.assign({}, base, override)`: fields of `override` win. -/
def assign (base override : StoreMap) : StoreMap :=
  override ++ base

/-- Split a character list on `.`, accumulating the current segment in
reverse (the model of `key.split('.')`). -/
def splitDotsAux : List Char → List Char → List String
  | [], acc => [String.mk acc.reverse]
  | c :: rest, acc =>
    if c == '.' then String.mk acc.reverse :: splitDotsAux rest []
    else splitDotsAux rest (c :: acc)

/-- `key.split('.')`. -/
def splitDots (s : String) : List String :=
  splitDotsAux s.data []

/-- Model of the `dotprop` dependency: walk a dotted path through nested
objects; any step that is missing or hits a non-object yields `undefined`. -/
def getPath : List String → JsValue → JsValue
  | [], v => v
  | p :: ps, .obj fields => match getEntry fields p with
      | .undefined => .undefined
      | v => getPath ps v
  | _ :: _, _ => .undefined

/-- `getProp(holder, key)` of the `dotprop` dependency. -/
def getProp (holder : JsValue) (key : String) : JsValue :=
  if key == "" then holder
  else getPath (splitDots key) holder

/-- Modelled from the spec (§4.4, §6): the `isUnset` helper of the missing
`./utilities` file — a token counts as unset when it is absent (`undefined`
or `null`) or the empty string. -/
def isUnset (v : JsValue) : Bool :=
  match v with
  | .undefined => true
  | .null => true
  | .str s => s == ""
  | _ => false

/-- Modelled from the spec (§4.5): the `isRelativeURL` helper of the missing
`./utilities` file — a valid same-origin relative path starts with a single
`/` (a `//` start would be protocol-relative, hence cross-origin). -/
def isRelativeURL (s : String) : Bool :=
  List.isPrefixOf ['/'] s.data && !List.isPrefixOf ['/', '/'] s.data

/-- URL normalization: drop the query string, the fragment, and any
trailing slashes. -/
def normalizeURL (s : String) : String :=
  let base := s.data.takeWhile (fun c => !(c == '?') && !(c == '#'))
  String.mk ((base.reverse.dropWhile (· == '/')).reverse)

/-- Modelled from the spec (§4.5): the `isSameURL` helper of the missing
`./utilities` file — two paths are the same URL when they normalize
identically. -/
def isSameURL (a b : String) : Bool :=
  normalizeURL a == normalizeURL b

/-- A registered strategy: an optional capability set
(`mounted`/`login`/`fetchUser`/`logout`/`reset`).  Each present capability is
recorded together with the settled outcome of invoking it (the strategy is an
external collaborator; its own effects are outside the core). -/
structure Strategy where
  mounted : Option (Except JsValue JsValue) := none
  login : Option (Except JsValue JsValue) := none
  fetchUser : Option (Except JsValue JsValue) := none
  logout : Option (Except JsValue JsValue) := none
  reset : Option (Except JsValue JsValue) := none

/-- The current route exposed by the routing context (`ctx.route`). -/
structure Route where
  path : String
  fullPath : String

/-- Construction-time configuration (read-only). -/
structure Options where
  defaultStrategy : String
  tokenPrefix : String
  scopeKey : String
  /-- `options.redirect`: `none` disables the redirect policy entirely;
  otherwise the event-name → destination map. -/
  redirectMap : Option (List (String × String))
  rewriteRedirects : Bool
  fullPathRedirect : Bool

/-- The state of an `Auth` instance: configuration, the strategy registry,
the two storage layers (ephemeral `$state` and persisted universal storage,
modelled from the spec §6 — `setUniversal` also mirrors into state, since
universal keys are persisted *and* cross-surface-synced), the last-seen
error, the broadcast log of `callOnError`, and the current route. -/
structure Auth where
  options : Options
  strategies : List (String × Strategy)
  state : StoreMap
  universal : StoreMap
  error : JsValue
  broadcasts : List (JsValue × String)
  route : Route

/-- Registry lookup (`this.strategies[name]`). -/
def lookupStrategy : List (String × Strategy) → String → Option Strategy
  | [], _ => none
  | (k, s) :: rest, name => if k == name then some s else lookupStrategy rest name

/-- `$storage.getState(key)`. -/
def getState (a : Auth) (k : String) : JsValue :=
  getEntry a.state k

/-- `$storage.setState(key, value)`. -/
def setState (a : Auth) (k : String) (v : JsValue) : Auth :=
  { a with state := setEntry a.state k v }

/-- Modelled from the spec (§6): `$storage.getUniversal(key)` of the missing
`./storage` file. -/
def getUniversal (a : Auth) (k : String) : JsValue :=
  getEntry a.universal k

/-- Modelled from the spec (§6): `$storage.setUniversal(key, value)` of the
missing `./storage` file — writes the persisted copy and mirrors the value
into the ephemeral state (universal keys are persisted + synced). -/
def setUniversal (a : Auth) (k : String) (v : JsValue) : Auth :=
  { a with universal := setEntry a.universal k v, state := setEntry a.state k v }

/-- Modelled from the spec (§6): `$storage.syncUniversal(key, fallback)` of
the missing `./storage` file — restore the persisted value (falling back to
`fallback` when unset) into both layers. -/
def syncUniversal (a : Auth) (k : String) (fallback : JsValue) : Auth :=
  let v := getUniversal a k
  setUniversal a k (if isUnset v then fallback else v)

/-- `get strategy ()`: the registry entry named by `$state.strategy`;
`none` models `undefined`. -/
def strategy (a : Auth) : Option Strategy :=
  lookupStrategy a.strategies (jsKeyString (getState a "strategy"))

/-- `registerStrategy(name, strategy)`. -/
def registerStrategy (a : Auth) (name : String) (s : Strategy) : Auth :=
  { a with strategies := (name, s) :: a.strategies }

/-- `callOnError(error, payload)`: records the last-seen error and fans the
pair out to every listener in registration order (one `broadcasts` entry per
fan-out). -/
def callOnError (a : Auth) (e : JsValue) (method : String) : Auth :=
  { a with error := e, broadcasts := a.broadcasts ++ [(e, method)] }

/-- The `TypeError` raised by JS when a property is read off `undefined`
(`this.strategy.login` with no registered strategy). -/
def jsTypeError : JsValue :=
  .obj [("name", .str "TypeError")]

/-- `setUser(user)`: writes `loggedIn := Boolean(user)` and then
`user := user` through `$storage.setState`. -/
def setUser (a : Auth) (user : JsValue) : Auth :=
  setState (setState a "loggedIn" (.bool (truthy user))) "user" user

/-- `getToken(strategy)`: reads the universal key `prefix + strategy`. -/
def getToken (a : Auth) (strat : String) : JsValue :=
  getUniversal a (a.options.tokenPrefix ++ strat)

/-- `setToken(strategy, token)`: writes the universal key `prefix + strategy`. -/
def setToken (a : Auth) (strat : String) (token : JsValue) : Auth :=
  setUniversal a (a.options.tokenPrefix ++ strat) token

/-- `syncToken(strategy)`: syncs the universal key `prefix + strategy`. -/
def syncToken (a : Auth) (strat : String) : Auth :=
  syncUniversal a (a.options.tokenPrefix ++ strat) .undefined

/-- `fetchUser()`: resolved no-op when the active strategy lacks the
capability; otherwise delegates and, on rejection, broadcasts the error
tagged `fetchUser` and resolves anyway.  Reading the capability off a
missing strategy raises a `TypeError`. -/
def fetchUser (a : Auth) : Auth × Except JsValue JsValue :=
  match strategy a with
  | none => (a, .error jsTypeError)
  | some s =>
    match s.fetchUser with
    | none => (a, .ok .undefined)
    | some (.ok v) => (a, .ok v)
    | some (.error e) => (callOnError a e "fetchUser", .ok .undefined)

/-- `fetchUserOnce()`: fetch the user only when none is present. -/
def fetchUserOnce (a : Auth) : Auth × Except JsValue JsValue :=
  if truthy (getState a "user") then (a, .ok .undefined)
  else fetchUser a

/-- `mounted()`: falls back to `fetchUserOnce` when the active strategy has
no `mounted` capability; otherwise delegates and, on rejection, broadcasts
the error tagged `mounted` and resolves (the catch handler returns the
result of `callOnError`).  Reading the capability off a missing strategy
raises a `TypeError`. -/
def mounted (a : Auth) : Auth × Except JsValue JsValue :=
  match strategy a with
  | none => (a, .error jsTypeError)
  | some s =>
    match s.mounted with
    | none => fetchUserOnce a
    | some (.ok v) => (a, .ok v)
    | some (.error e) => (callOnError a e "mounted", .ok .undefined)

/-- Source `reset()` (declared after `logout` in the source; placed first
here because `logout` falls back to it): when the active strategy lacks
`reset`, clears the user (`setUser(null)`) and clears the token of the
current strategy, resolving; otherwise delegates, broadcasting a rejection
tagged `reset` and resolving anyway. -/
def reset (a : Auth) : Auth × Except JsValue JsValue :=
  match strategy a with
  | none => (a, .error jsTypeError)
  | some s =>
    match s.reset with
    | none =>
      let a1 := setUser a .null
      let a2 := setToken a1 (jsKeyString (getState a1 "strategy")) .null
      (a2, .ok .undefined)
    | some (.ok v) => (a, .ok v)
    | some (.error e) => (callOnError a e "reset", .ok .undefined)

/-- `logout()`: when the active strategy lacks `logout`, runs `reset()`
(discarding its promise) and resolves; otherwise delegates, broadcasting a
rejection tagged `logout` and resolving anyway. -/
def logout (a : Auth) : Auth × Except JsValue JsValue :=
  match strategy a with
  | none => (a, .error jsTypeError)
  | some s =>
    match s.logout with
    | none => ((reset a).1, .ok .undefined)
    | some (.ok v) => (a, .ok v)
    | some (.error e) => (callOnError a e "logout", .ok .undefined)

/-- `wrapLogin(promise)` (§4.2a): set `busy`, clear the last error, and on
settle clear `busy`; a rejection is re-thrown after the flag reset, a
fulfilment yields the `then` handler's `undefined`. -/
def wrapLogin (a : Auth) (p : Except JsValue JsValue) : Auth × Except JsValue JsValue :=
  let a1 := setState a "busy" (.bool true)
  let a2 := { a1 with error := .null }
  match p with
  | .ok _ => (setState a2 "busy" (.bool false), .ok .undefined)
  | .error e => (setState a2 "busy" (.bool false), .error e)

/-- `login()`: resolved no-op when the active strategy lacks `login`;
otherwise wraps the strategy's login with busy tracking and attaches a catch
handler that broadcasts the error tagged `login` — the catch handler returns
the result of `callOnError`, so the promise `login` returns fulfils (with
`undefined`) even when the underlying login rejected. -/
def login (a : Auth) : Auth × Except JsValue JsValue :=
  match strategy a with
  | none => (a, .error jsTypeError)
  | some s =>
    match s.login with
    | none => (a, .ok .undefined)
    | some p =>
      match wrapLogin a p with
      | (a1, .ok v) => (a1, .ok v)
      | (a1, .error e) => (callOnError a1 e "login", .ok .undefined)

/-- `setStrategy(name)`: short-circuits (resolved, no write, no `mounted`)
when `name === getUniversal('strategy')`; otherwise persists the new name
and calls `mounted()`. -/
def setStrategy (a : Auth) (name : String) : Auth × Except JsValue JsValue :=
  if strictEqStr (getUniversal a "strategy") name then (a, .ok .undefined)
  else mounted (setUniversal a "strategy" (.str name))

/-- `loginWith(name, ...args)`: `setStrategy(name).then(() => login(...))`. -/
def loginWith (a : Auth) (name : String) : Auth × Except JsValue JsValue :=
  match setStrategy a name with
  | (a1, .ok _) => login a1
  | (a1, .error e) => (a1, .error e)

/-- `request(endpoint, defaults)`: merge `defaults` under `endpoint` when
`defaults` is an object, issue one transport call (`transport` is the
collaborator's settled answer), extract `propertyName` from the response
payload when configured, and on failure broadcast tagged `request` and
re-reject.  The final component counts transport calls. -/
def request (a : Auth) (endpoint : StoreMap) (defaults : Option StoreMap)
    (transport : Except JsValue JsValue) : Auth × Except JsValue JsValue × Nat :=
  let ep := match defaults with
    | some d => assign d endpoint
    | none => endpoint
  match transport with
  | .ok data =>
    let pn := getEntry ep "propertyName"
    (a, .ok (if truthy pn then getProp data (jsKeyString pn) else data), 1)
  | .error e => (callOnError a e "request", .error e, 1)

/-- The error constructed by `new Error('No Token')`. -/
def noTokenError : JsValue :=
  .obj [("message", .str "No Token")]

/-- `requestWith(strategy, endpoint, defaults)`: resolve the token for
`strategy`; reject with the NoToken error (zero transport calls) when it is
unset; otherwise merge the defaults, ensure a headers map, inject the token
under `Authorization` unless already set, and delegate to `request`. -/
def requestWith (a : Auth) (strat : String) (endpoint : StoreMap)
    (defaults : Option StoreMap) (transport : Except JsValue JsValue) :
    Auth × Except JsValue JsValue × Nat :=
  let token := getToken a strat
  if isUnset token then (a, .error noTokenError, 0)
  else
    let ep := assign (defaults.getD []) endpoint
    let ep := if truthy (getEntry ep "headers") then ep
      else setEntry ep "headers" (.obj [])
    let ep := match getEntry ep "headers" with
      | .obj hs =>
        if truthy (getEntry hs "Authorization") then ep
        else setEntry ep "headers" (.obj (setEntry hs "Authorization" token))
      | _ => ep
    request a ep none transport

/-- A navigation the redirect policy engine performs. -/
inductive NavAction where
  | routerRedirect (dest : String)
  | windowReplace (dest : String)
  deriving Repr, DecidableEq

/-- Destination lookup `options.redirect[name]`. -/
def lookupDest : List (String × String) → String → Option String
  | [], _ => none
  | (k, v) :: rest, name => if k == name then some v else lookupDest rest name

/-- The `from` path of `redirect`, exactly as the source computes it:
`options.fullPathRedirect ? ctx.route.path : ctx.route.fullPath`. -/
def redirectFrom (a : Auth) : String :=
  if a.options.fullPathRedirect then a.route.path else a.route.fullPath

/-- The rewrite step of `redirect` (§4.5): under `rewriteRedirects`, a
`login` event persists `fromPath` as the return-to target when it is a
relative path distinct from the destination; a `home` event reads and clears
the persisted target and uses it as the destination when it is a relative
path.  Returns the updated state and the resolved destination. -/
def redirectResolve (a : Auth) (name fromPath to0 : String) : Auth × String :=
  if a.options.rewriteRedirects then
    let a1 :=
      if name == "login" && isRelativeURL fromPath && !isSameURL to0 fromPath
      then setUniversal a "redirect" (.str fromPath)
      else a
    if name == "home" then
      let r := getUniversal a1 "redirect"
      let a2 := setUniversal a1 "redirect" .null
      match r with
      | .str s => if isRelativeURL s then (a2, s) else (a2, to0)
      | _ => (a2, to0)
    else (a1, to0)
  else (a, to0)

/-- `redirect(name, noRouter)`: no-op when redirects are disabled or no
destination is configured for `name`; otherwise resolve rewrites, abort when
the destination normalizes to the same URL as `from`, and navigate via a
full-page replace (browser with router suppressed) or the router. -/
def redirect (a : Auth) (name : String) (noRouter browser : Bool) :
    Auth × Option NavAction :=
  match a.options.redirectMap with
  | none => (a, none)
  | some rmap =>
    let fromPath := redirectFrom a
    match lookupDest rmap name with
    | none => (a, none)
    | some to0 =>
      if to0 == "" then (a, none)
      else
        let r := redirectResolve a name fromPath to0
        if isSameURL r.2 fromPath then (r.1, none)
        else if browser && noRouter then (r.1, some (.windowReplace r.2))
        else (r.1, some (.routerRedirect r.2))

/-- The claim value `this.$state.user && getProp(this.$state.user,
this.options.scopeKey)` of `hasScope`. -/
def userScopes (a : Auth) : JsValue :=
  jsAnd (getState a "user") (getProp (getState a "user") a.options.scopeKey)

/-- `includes(scope)` on a JS array against a string: strict equality with
each element. -/
def includesStr (xs : List JsValue) (scope : String) : Bool :=
  xs.any (fun v => strictEqStr v scope)

/-- `hasScope(scope)`: `undefined` when the claim value is absent or falsy;
membership when it is an array; otherwise the truthiness of the named
sub-claim. -/
def hasScope (a : Auth) (scope : String) : JsValue :=
  let us := userScopes a
  if !truthy us then .undefined
  else match us with
    | .arr xs => .bool (includesStr xs scope)
    | v => .bool (truthy (getProp v scope))

/-- `init()` without the client-side `watchState` subscription (navigation
reactions are driven by `redirect` directly in this model): restore the
persisted strategy name, then run `mounted()`. -/
def init (a : Auth) : Auth × Except JsValue JsValue :=
  mounted (syncUniversal a "strategy" (.str a.options.defaultStrategy))

/-- The session-state invariant of the spec, amended to what the code's
`setUser` actually establishes: `loggedIn` equals the truthiness of `user`
(`Boolean(user)`). -/
def loggedInInvariant (a : Auth) : Prop :=
  getState a "loggedIn" = .bool (truthy (getState a "user"))

/-- The universal storage key cleared by `reset`'s fallback:
`options.token.prefix + $state.strategy`. -/
def resetTokenKey (a : Auth) : String :=
  a.options.tokenPrefix ++ jsKeyString (getState a "strategy")

/-- Concrete configuration used by the closed scenarios below. -/
def demoOptions : Options :=
  { defaultStrategy := "local", tokenPrefix := "_token.", scopeKey := "scope",
    redirectMap := some [("login", "/login"), ("home", "/")],
    rewriteRedirects := true, fullPathRedirect := false }

/-- A freshly constructed instance on the route `/secret` with an empty
strategy registry. -/
def baseAuth : Auth :=
  { options := demoOptions, strategies := [],
    state := [("user", .null), ("loggedIn", .bool false)],
    universal := [], error := .undefined, broadcasts := [],
    route := { path := "/secret", fullPath := "/secret" } }

/-- A strategy whose `login` capability rejects with the error `"boom"`. -/
def boomLoginStrategy : Strategy :=
  { login := some (.error (.str "boom")) }

/-- An instance whose active strategy is `local` = `boomLoginStrategy`. -/
def boomAuth : Auth :=
  { baseAuth with
    strategies := [("local", boomLoginStrategy)],
    state := setEntry baseAuth.state "strategy" (.str "local"),
    universal := [("strategy", .str "local")] }

/-- An instance whose active strategy `local` is registered with no
capabilities at all. -/
def bareAuth : Auth :=
  { baseAuth with
    strategies := [("local", {})],
    state := setEntry baseAuth.state "strategy" (.str "local"),
    universal := [("strategy", .str "local")] }

/-- An instance whose ephemeral state names the active strategy `local`
while the registry is empty (the lookup yields `undefined`). -/
def noRegAuth : Auth :=
  { baseAuth with state := setEntry baseAuth.state "strategy" (.str "local") }

/-- A user whose scope claim is the list `["admin"]`. -/
def scopeListUser : JsValue :=
  .obj [("scope", .arr [.str "admin"])]

/-- A user whose scope claim is the map `{admin: true}`. -/
def scopeMapUser : JsValue :=
  .obj [("scope", .obj [("admin", .bool true)])]

/-- First step of the C5 scenario: `redirect('login')` from `/secret`. -/
def c5Step1 : Auth × Option NavAction :=
  redirect baseAuth "login" false true

/-- The state after following the first navigation to `/login`. -/
def c5Auth1 : Auth :=
  { c5Step1.1 with route := { path := "/login", fullPath := "/login" } }

/-- Second step of the C5 scenario: `redirect('home')` from `/login`. -/
def c5Step2 : Auth × Option NavAction :=
  redirect c5Auth1 "home" false true

/-- The state after following the second navigation to `/secret`. -/
def c5Auth2 : Auth :=
  { c5Step2.1 with route := { path := "/secret", fullPath := "/secret" } }

/-- Third step of the C5 scenario: `redirect('home')` again. -/
def c5Step3 : Auth × Option NavAction :=
  redirect c5Auth2 "home" false true

/-- The route used by the C9 divergence: plain path `/a`, full path
`/a?q=1`. -/
def c9Route : Route :=
  { path := "/a", fullPath := "/a?q=1" }

/-! ## Helper lemmas on the storage model -/

theorem getEntry_setEntry_self (m : StoreMap) (k : String) (v : JsValue) :
    getEntry (setEntry m k v) k = v := by
  simp [getEntry, setEntry]

theorem getEntry_setEntry_ne (m : StoreMap) (k k2 : String) (v : JsValue)
    (h : k ≠ k2) : getEntry (setEntry m k v) k2 = getEntry m k2 := by
  simp [getEntry, setEntry, h]

theorem getState_setState_ne (a : Auth) (k k2 : String) (v : JsValue)
    (h : k ≠ k2) : getState (setState a k v) k2 = getState a k2 := by
  simp [getState, setState, getEntry_setEntry_ne _ _ _ _ h]

theorem getState_setUniversal_ne (a : Auth) (k k2 : String) (v : JsValue)
    (h : k ≠ k2) : getState (setUniversal a k v) k2 = getState a k2 := by
  simp [getState, setUniversal, getEntry_setEntry_ne _ _ _ _ h]

theorem getState_callOnError (a : Auth) (e : JsValue) (m k : String) :
    getState (callOnError a e m) k = getState a k := rfl

theorem getState_wrapLogin_ne (a : Auth) (p : Except JsValue JsValue)
    (k : String) (h : k ≠ "busy") :
    getState (wrapLogin a p).1 k = getState a k := by
  unfold wrapLogin
  cases p <;>
    simp [getState, setState, getEntry_setEntry_ne _ _ _ _ (Ne.symm h)]

/-! ## Claims -/

/-- C1: on a strategy whose `login` rejects with `"boom"`, the Session
Controller's `login` broadcasts the error tagged `login` and resets `busy`,
but the promise it returns fulfils with `undefined` instead of re-rejecting:
the catch handler returns `callOnError`'s result, so the rejection never
reaches the caller.  This exhibits the code's divergence from the claim. -/
theorem C1_login_rejection_swallowed :
    (login boomAuth).2 = .ok .undefined ∧
    (login boomAuth).1.broadcasts = [(.str "boom", "login")] ∧
    (login boomAuth).1.error = .str "boom" ∧
    getState (login boomAuth).1 "busy" = .bool false :=
  ⟨rfl, rfl, rfl, rfl⟩

/-- C3: `setStrategy(name)` with `name` equal to the persisted strategy
returns a resolved promise and leaves the state untouched (in particular it
never reaches `mounted`); with a different `name` it is exactly "persist the
new name, then run `mounted` on the resulting state". -/
theorem C3_setStrategy_idempotent (a : Auth) (name cur : String)
    (hcur : getUniversal a "strategy" = .str cur) :
    (cur = name → setStrategy a name = (a, .ok .undefined)) ∧
    (cur ≠ name →
      setStrategy a name = mounted (setUniversal a "strategy" (.str name))) := by
  constructor
  · intro he
    subst he
    simp [setStrategy, hcur, strictEqStr]
  · intro hne
    simp [setStrategy, hcur, strictEqStr, hne]

/-- Closed witness for C3 at a concrete state persisted on `local`. -/
theorem C3_setStrategy_idempotent_witness :
    setStrategy bareAuth "local" = (bareAuth, .ok .undefined) ∧
    setStrategy bareAuth "github" =
      mounted (setUniversal bareAuth "strategy" (.str "github")) :=
  ⟨(C3_setStrategy_idempotent bareAuth "local" "local" rfl).1 rfl,
   (C3_setStrategy_idempotent bareAuth "github" "local" rfl).2 (by decide)⟩

/-- C4: whenever the stored token for `strategy` is unset or empty,
`requestWith` rejects with the NoToken error, leaves the state untouched,
and performs zero transport calls. -/
theorem C4_requestWith_noToken (a : Auth) (strat : String)
    (endpoint : StoreMap) (defaults : Option StoreMap)
    (transport : Except JsValue JsValue)
    (h : isUnset (getToken a strat) = true) :
    requestWith a strat endpoint defaults transport =
      (a, .error noTokenError, 0) := by
  simp [requestWith, h]

/-- Closed witness for C4: a fresh instance stores no token for `local`. -/
theorem C4_requestWith_noToken_witness :
    isUnset (getToken baseAuth "local") = true ∧
    requestWith baseAuth "local" [("url", .str "/api/user")] none
        (.ok (.str "ignored")) = (baseAuth, .error noTokenError, 0) :=
  ⟨rfl, C4_requestWith_noToken baseAuth "local" _ none _ rfl⟩

/-- C5: with rewrites enabled, `redirect('login')` from `/secret` persists
`/secret` and navigates to the configured login page; the next
`redirect('home')` (from `/login`) navigates to `/secret` instead of the
configured home path and clears the persisted target; a further
`redirect('home')` (from `/secret`) uses the configured home path again. -/
theorem C5_rewrite_roundtrip :
    c5Step1.2 = some (.routerRedirect "/login") ∧
    getUniversal c5Step1.1 "redirect" = .str "/secret" ∧
    c5Step2.2 = some (.routerRedirect "/secret") ∧
    getUniversal c5Step2.1 "redirect" = .null ∧
    c5Step3.2 = some (.routerRedirect "/") :=
  ⟨rfl, rfl, rfl, rfl, rfl⟩

/-- The state `redirect` finishes in is the state the rewrite step produced,
whenever a destination is configured (shared helper for C6/C10). -/
theorem redirect_state_eq_resolve (a : Auth) (name : String) (nr br : Bool)
    (rmap : List (String × String)) (to0 : String)
    (hmap : a.options.redirectMap = some rmap)
    (hto : lookupDest rmap name = some to0) (hne : to0 ≠ "") :
    (redirect a name nr br).1 =
      (redirectResolve a name (redirectFrom a) to0).1 := by
  unfold redirect
  rw [hmap]
  simp only [hto, hne, beq_iff_eq, if_false, if_neg hne]
  split <;> (try split) <;> rfl

/-- C6: for every event name and every state in which the destination
resolved by the rewrite step normalizes to the same URL as the computed
`from` path, `redirect` performs no navigation at all. -/
theorem C6_redirect_no_loop (a : Auth) (name : String) (nr br : Bool)
    (rmap : List (String × String)) (to0 : String)
    (hmap : a.options.redirectMap = some rmap)
    (hto : lookupDest rmap name = some to0) (hne : to0 ≠ "")
    (hsame : isSameURL (redirectResolve a name (redirectFrom a) to0).2
        (redirectFrom a) = true) :
    (redirect a name nr br).2 = none := by
  unfold redirect
  rw [hmap]
  simp only [hto, beq_iff_eq, if_neg hne, hsame, if_true]

/-- Closed witness for C6: rewrites disabled, the home destination `/` and
the current route `/` normalize alike, so nothing navigates. -/
theorem C6_redirect_no_loop_witness :
    (redirect { baseAuth with
        options := { demoOptions with rewriteRedirects := false },
        route := { path := "/", fullPath := "/" } } "home" false true).2 =
      none :=
  C6_redirect_no_loop _ "home" false true _ "/" rfl rfl (by decide) rfl

/-- C10: with rewrites on and a home destination configured, every
`redirect('home')` call leaves the universal `redirect` key cleared to
`null`, whether or not the navigation was subsequently aborted. -/
theorem C10_home_clears_redirect (a : Auth) (nr br : Bool)
    (rmap : List (String × String)) (to0 : String)
    (hmap : a.options.redirectMap = some rmap)
    (hto : lookupDest rmap "home" = some to0) (hne : to0 ≠ "")
    (hrw : a.options.rewriteRedirects = true) :
    getUniversal (redirect a "home" nr br).1 "redirect" = .null := by
  rw [redirect_state_eq_resolve a "home" nr br rmap to0 hmap hto hne]
  unfold redirectResolve
  rw [hrw]
  simp only [if_true]
  have hlogin : (("home" == "login") &&
      isRelativeURL (redirectFrom a) && !isSameURL to0 (redirectFrom a)) = false := by
    simp [show ("home" == "login") = false from by decide]
  rw [hlogin]
  simp only [if_false, if_true, beq_self_eq_true]
  split <;> (try split) <;>
    simp [getUniversal, setUniversal, getEntry_setEntry_self]

/-- Closed witness for C10: the aborted case — the persisted return-to
target `/` equals the current route, the navigation aborts, and the key is
cleared anyway. -/
theorem C10_home_clears_redirect_witness :
    getUniversal (redirect { baseAuth with
        route := { path := "/", fullPath := "/" },
        universal := [("redirect", .str "/")] } "home" false true).1
      "redirect" = .null ∧
    (redirect { baseAuth with
        route := { path := "/", fullPath := "/" },
        universal := [("redirect", .str "/")] } "home" false true).2 = none :=
  ⟨C10_home_clears_redirect _ false true _ "/" rfl rfl (by decide) rfl, rfl⟩

/-- C7: `hasScope(scope)` returns `undefined` when the claim value read off
the current user is absent or falsy, list membership when the claim value is
a sequence, and the truthiness of the named sub-claim when it is a map. -/
theorem C7_hasScope_shapes (a : Auth) (scope : String) :
    (truthy (userScopes a) = false → hasScope a scope = .undefined) ∧
    (∀ xs, userScopes a = .arr xs →
      hasScope a scope = .bool (includesStr xs scope)) ∧
    (∀ fields, userScopes a = .obj fields →
      hasScope a scope = .bool (truthy (getProp (.obj fields) scope))) := by
  refine ⟨fun h => ?_, fun xs h => ?_, fun fields h => ?_⟩
  · simp [hasScope, h]
  · simp [hasScope, h, truthy]
  · simp [hasScope, h, truthy]

/-- Closed witness for C7: no claim → `undefined`; list claim → membership;
map claim → the sub-claim's truthiness. -/
theorem C7_hasScope_shapes_witness :
    hasScope baseAuth "admin" = .undefined ∧
    hasScope { baseAuth with state := [("user", scopeListUser)] } "admin"
      = .bool true ∧
    hasScope { baseAuth with state := [("user", scopeListUser)] } "root"
      = .bool false ∧
    hasScope { baseAuth with state := [("user", scopeMapUser)] } "admin"
      = .bool true :=
  ⟨(C7_hasScope_shapes baseAuth "admin").1 rfl,
   (C7_hasScope_shapes _ "admin").2.1 [.str "admin"] rfl,
   (C7_hasScope_shapes _ "root").2.1 [.str "admin"] rfl,
   (C7_hasScope_shapes _ "admin").2.2 [("admin", .bool true)] rfl⟩

/-- C8 counterexample: with the active strategy name `local` absent from the
registry, every lifecycle operation raises a `TypeError` (the capability is
read off `undefined`) instead of taking a no-op or fallback path. -/
theorem C8_counterexample_missing_strategy_throws :
    strategy noRegAuth = none ∧
    (mounted noRegAuth).2 = .error jsTypeError ∧
    (login noRegAuth).2 = .error jsTypeError ∧
    (fetchUser noRegAuth).2 = .error jsTypeError ∧
    (logout noRegAuth).2 = .error jsTypeError ∧
    (reset noRegAuth).2 = .error jsTypeError :=
  ⟨rfl, rfl, rfl, rfl, rfl, rfl⟩

/-- C8 (amended): when the registry lookup for the active strategy name
yields `undefined`, each lifecycle operation raises a `TypeError` and leaves
the state untouched; the documented no-op/fallback paths apply only to a
registered strategy lacking the capability. -/
theorem C8_missing_strategy_raises (a : Auth) (h : strategy a = none) :
    mounted a = (a, .error jsTypeError) ∧
    login a = (a, .error jsTypeError) ∧
    fetchUser a = (a, .error jsTypeError) ∧
    logout a = (a, .error jsTypeError) ∧
    reset a = (a, .error jsTypeError) := by
  refine ⟨?_, ?_, ?_, ?_, ?_⟩ <;>
    simp [mounted, login, fetchUser, logout, reset, h]

/-- Closed witness for C8's amended theorem at the concrete unregistered
state. -/
theorem C8_missing_strategy_raises_witness :
    mounted noRegAuth = (noRegAuth, .error jsTypeError) :=
  (C8_missing_strategy_raises noRegAuth rfl).1

theorem getState_setUser_user (a : Auth) (u : JsValue) :
    getState (setUser a u) "user" = u := by
  unfold setUser setState getState
  exact getEntry_setEntry_self _ _ _

theorem getState_setUser_loggedIn (a : Auth) (u : JsValue) :
    getState (setUser a u) "loggedIn" = .bool (truthy u) := by
  unfold setUser setState getState
  rw [getEntry_setEntry_ne _ _ _ _ (by decide)]
  exact getEntry_setEntry_self _ _ _

theorem inv_setUser (a : Auth) (u : JsValue) :
    loggedInInvariant (setUser a u) := by
  unfold loggedInInvariant
  rw [getState_setUser_user, getState_setUser_loggedIn]

theorem inv_of_state_eq {a b : Auth} (h : b.state = a.state)
    (hI : loggedInInvariant a) : loggedInInvariant b := by
  unfold loggedInInvariant getState at *
  rw [h]
  exact hI

theorem fetchUser_state (a : Auth) : (fetchUser a).1.state = a.state := by
  unfold fetchUser
  split
  · rfl
  · split <;> rfl

theorem fetchUserOnce_state (a : Auth) :
    (fetchUserOnce a).1.state = a.state := by
  unfold fetchUserOnce
  split
  · rfl
  · exact fetchUser_state a

theorem mounted_state (a : Auth) : (mounted a).1.state = a.state := by
  unfold mounted
  split
  · rfl
  · split
    · exact fetchUserOnce_state _
    · rfl
    · rfl

theorem inv_wrapLogin (a : Auth) (p : Except JsValue JsValue)
    (h : loggedInInvariant a) : loggedInInvariant (wrapLogin a p).1 := by
  unfold loggedInInvariant
  rw [getState_wrapLogin_ne _ _ _ (by decide),
    getState_wrapLogin_ne _ _ _ (by decide)]
  exact h

theorem inv_login (a : Auth) (h : loggedInInvariant a) :
    loggedInInvariant (login a).1 := by
  unfold login
  split
  · exact h
  · split
    · exact h
    · rename_i p hp
      rcases hw : wrapLogin a p with ⟨a1, r⟩
      have h1 : loggedInInvariant a1 := by
        have h2 := inv_wrapLogin a p h
        rw [hw] at h2
        exact h2
      cases r
      · exact inv_of_state_eq rfl h1
      · exact h1

theorem inv_setUniversal (a : Auth) (k : String) (v : JsValue)
    (h1 : k ≠ "loggedIn") (h2 : k ≠ "user") (h : loggedInInvariant a) :
    loggedInInvariant (setUniversal a k v) := by
  unfold loggedInInvariant
  rw [getState_setUniversal_ne _ _ _ _ h1, getState_setUniversal_ne _ _ _ _ h2]
  exact h

theorem inv_setStrategy (a : Auth) (name : String) (h : loggedInInvariant a) :
    loggedInInvariant (setStrategy a name).1 := by
  unfold setStrategy
  split
  · exact h
  · exact inv_of_state_eq (mounted_state _)
      (inv_setUniversal _ _ _ (by decide) (by decide) h)

theorem inv_reset (a : Auth) (h1 : resetTokenKey a ≠ "loggedIn")
    (h2 : resetTokenKey a ≠ "user") (h : loggedInInvariant a) :
    loggedInInvariant (reset a).1 := by
  unfold reset
  split
  · exact h
  · split
    · have hstrat : getState (setUser a .null) "strategy" = getState a "strategy" := by
        unfold setUser setState getState
        rw [getEntry_setEntry_ne _ _ _ _ (by decide),
          getEntry_setEntry_ne _ _ _ _ (by decide)]
      show loggedInInvariant
        (setToken (setUser a .null)
          (jsKeyString (getState (setUser a .null) "strategy")) .null)
      rw [hstrat]
      exact inv_setUniversal _ _ _ h1 h2 (inv_setUser a .null)
    · exact h
    · exact inv_of_state_eq rfl h

theorem inv_logout (a : Auth) (h1 : resetTokenKey a ≠ "loggedIn")
    (h2 : resetTokenKey a ≠ "user") (h : loggedInInvariant a) :
    loggedInInvariant (logout a).1 := by
  unfold logout
  split
  · exact h
  · split
    · exact inv_reset a h1 h2 h
    · exact h
    · exact inv_of_state_eq rfl h

theorem inv_loginWith (a : Auth) (name : String) (h : loggedInInvariant a) :
    loggedInInvariant (loginWith a name).1 := by
  unfold loginWith
  rcases hss : setStrategy a name with ⟨a1, r⟩
  have h1 : loggedInInvariant a1 := by
    have h2 := inv_setStrategy a name h
    rw [hss] at h2
    exact h2
  cases r
  · exact h1
  · exact inv_login a1 h1

theorem inv_init (a : Auth) (h : loggedInInvariant a) :
    loggedInInvariant (init a).1 := by
  unfold init syncUniversal
  exact inv_of_state_eq (mounted_state _)
    (inv_setUniversal _ _ _ (by decide) (by decide) h)

theorem request_state (a : Auth) (endpoint : StoreMap)
    (defaults : Option StoreMap) (transport : Except JsValue JsValue) :
    (request a endpoint defaults transport).1.state = a.state := by
  unfold request
  cases transport <;> rfl

theorem requestWith_state (a : Auth) (strat : String) (endpoint : StoreMap)
    (defaults : Option StoreMap) (transport : Except JsValue JsValue) :
    (requestWith a strat endpoint defaults transport).1.state = a.state := by
  by_cases h : isUnset (getToken a strat) = true
  · simp only [requestWith]
    rw [if_pos h]
  · simp only [requestWith]
    rw [if_neg h]
    exact request_state _ _ _ _

/-- C2 counterexample: `setUser(false)` stores `loggedIn = false` although
`false != null` — the stated equivalence `loggedIn == (u != null)` fails on
falsy non-null values. -/
theorem C2_counterexample_falsy_user :
    getState (setUser baseAuth (.bool false)) "loggedIn" = .bool false ∧
    JsValue.bool false ≠ JsValue.null ∧
    JsValue.bool false ≠ JsValue.undefined :=
  ⟨getState_setUser_loggedIn baseAuth (.bool false),
   fun h => JsValue.noConfusion h, fun h => JsValue.noConfusion h⟩

/-- C2 (amended): after `setUser(u)` the state satisfies
`loggedIn == Boolean(u)` — which coincides with `u != null` whenever `u` is
a user object or `null`/`undefined` — and, `setUser` being the only writer
of the two fields, the invariant `loggedIn == Boolean(user)` is preserved by
every operation of the Session Controller (for `reset`/`logout`, provided
the token storage key does not collide with the state field names). -/
theorem C2_loggedIn_tracks_user :
    (∀ (a : Auth) (u : JsValue),
      getState (setUser a u) "user" = u ∧
      getState (setUser a u) "loggedIn" = .bool (truthy u)) ∧
    (∀ (a : Auth) (u : JsValue),
      truthy u = true ∨ u = .null ∨ u = .undefined →
      (getState (setUser a u) "loggedIn" = .bool true ↔
        (u ≠ .null ∧ u ≠ .undefined))) ∧
    (∀ a : Auth, loggedInInvariant a →
      (∀ u, loggedInInvariant (setUser a u)) ∧
      loggedInInvariant (mounted a).1 ∧
      loggedInInvariant (login a).1 ∧
      loggedInInvariant (fetchUser a).1 ∧
      loggedInInvariant (fetchUserOnce a).1 ∧
      (∀ name, loggedInInvariant (setStrategy a name).1) ∧
      (∀ name, loggedInInvariant (loginWith a name).1) ∧
      loggedInInvariant (init a).1 ∧
      (∀ strat endpoint defaults transport,
        loggedInInvariant (requestWith a strat endpoint defaults transport).1) ∧
      (resetTokenKey a ≠ "loggedIn" → resetTokenKey a ≠ "user" →
        loggedInInvariant (reset a).1 ∧ loggedInInvariant (logout a).1)) := by
  refine ⟨fun a u => ⟨getState_setUser_user a u, getState_setUser_loggedIn a u⟩,
    fun a u hu => ?_, fun a h => ?_⟩
  · rw [getState_setUser_loggedIn]
    rcases hu with ht | rfl | rfl
    · have hn : u ≠ .null ∧ u ≠ .undefined := by
        constructor <;> rintro rfl <;> simp [truthy] at ht
      simp [ht, hn.1, hn.2]
    · simp [truthy]
    · simp [truthy]
  · refine ⟨inv_setUser a, inv_of_state_eq (mounted_state a) h, inv_login a h,
      inv_of_state_eq (fetchUser_state a) h,
      inv_of_state_eq (fetchUserOnce_state a) h,
      fun name => inv_setStrategy a name h,
      fun name => inv_loginWith a name h,
      inv_init a h,
      fun strat endpoint defaults transport =>
        inv_of_state_eq (requestWith_state a strat endpoint defaults transport) h,
      fun h1 h2 => ⟨inv_reset a h1 h2 h, inv_logout a h1 h2 h⟩⟩

/-- Closed witness for C2's amended theorem: a truthy user object logs in,
and the invariant survives a `logout` that falls back to `reset` on the
concrete `bare` instance. -/
theorem C2_loggedIn_tracks_user_witness :
    getState (setUser baseAuth (.obj [("id", .num 1)])) "loggedIn"
      = .bool true ∧
    loggedInInvariant (logout bareAuth).1 :=
  ⟨(C2_loggedIn_tracks_user.1 baseAuth (.obj [("id", .num 1)])).2,
   ((C2_loggedIn_tracks_user.2.2 bareAuth rfl).2.2.2.2.2.2.2.2.2
     (by decide) (by decide)).2⟩

/-- C9: the source computes `from` as
`fullPathRedirect ? route.path : route.fullPath`, i.e. the *plain* path when
the flag is enabled and the *full* path when it is disabled — inverted with
respect to the flag's meaning. -/
theorem C9_from_inverted :
    redirectFrom { baseAuth with
        options := { demoOptions with fullPathRedirect := true },
        route := c9Route } = "/a" ∧
    redirectFrom { baseAuth with route := c9Route } = "/a?q=1" :=
  ⟨rfl, rfl⟩

end AuthModule
